import Mathlib

/-!
Verification of the Scanzy theme system: a shallow embedding of the theme
catalog (constants/Colors.ts) and of the theme preference resolver
(contexts/ThemeContext.tsx), together with proofs of the specified
properties.

Modelling conventions:
- JavaScript strings are Lean `String`s (in this toolchain a `String` is a
  packed `List Char`, matching the JS view of a string as a char sequence);
  `s.slice(1)` is modelled with `List.drop 1` on `String.data`.
- JavaScript number arithmetic on small integers (hex parsing, channel
  arithmetic, rounding) is exact, so it is modelled with `Nat`/`Int`;
  `Math.round` and fractional inputs such as `percent`/`alpha` use `Rat`.
- `Math.pow(base, 2.4)` and the luminance pipeline are modelled over `Real`
  with real exponentiation; the WCAG comparisons are stated as `Prop`s.
- The asynchronous resolver is modelled as a transition system: the mount
  effect issues one read whose completion is a `load` event carrying the
  read outcome, and each `toggleTheme` call is a `toggle` event carrying
  the success of its fire-and-forget write.
-/

namespace Scanzy

/-- `Math.round` for nonnegative-half-up rounding: JavaScript rounds half
towards positive infinity. -/
def jsRound (q : ℚ) : ℤ := ⌊q + 1/2⌋

/-- Is `c` a hexadecimal digit (as accepted by `parseInt(s, 16)`)?  The
three ranges are `0-9` (code points 48-57), `a-f` (97-102), `A-F` (65-70). -/
def isHexDigit (c : Char) : Bool :=
  (48 ≤ c.toNat && c.toNat ≤ 57) || (97 ≤ c.toNat && c.toNat ≤ 102) ||
    (65 ≤ c.toNat && c.toNat ≤ 70)

/-- Numeric value of a hexadecimal digit character. -/
def hexDigitVal (c : Char) : ℕ :=
  if 48 ≤ c.toNat && c.toNat ≤ 57 then c.toNat - 48
  else if 97 ≤ c.toNat && c.toNat ≤ 102 then c.toNat - 87
  else if 65 ≤ c.toNat && c.toNat ≤ 70 then c.toNat - 55
  else 0

/-- The character JavaScript uses for digit `d` in `Number.toString(16)`:
`0-9` then lowercase `a-f`. -/
def hexDigitChar (d : ℕ) : Char :=
  if d < 10 then Char.ofNat (48 + d) else Char.ofNat (87 + d)

/-- Accumulating core of `parseInt(s, 16)`: consume hexadecimal digits from
the front, stopping at the first non-digit. -/
def parseHexAcc : ℕ → List Char → ℕ
  | acc, [] => acc
  | acc, c :: cs =>
    if isHexDigit c then parseHexAcc (16 * acc + hexDigitVal c) cs else acc

/-- `parseInt(s, 16)` on a string of hexadecimal digits (the only inputs the
theme code feeds it; on an input with no leading digit JS would give `NaN`,
which this total model collapses to 0). -/
def jsParseInt16 (s : String) : ℕ := parseHexAcc 0 s.data

/-- Fuelled hexadecimal printer; `fuel` bounds the number of digits. -/
def natToHexAux : ℕ → ℕ → List Char
  | 0, _ => []
  | fuel + 1, n =>
    if n < 16 then [hexDigitChar n]
    else natToHexAux fuel (n / 16) ++ [hexDigitChar (n % 16)]

/-- `Number.prototype.toString(16)` for a natural number: lowercase
hexadecimal digits, most significant first. -/
def jsToString16 (n : ℕ) : List Char := natToHexAux (n + 1) n

/-- `String.prototype.padStart(len, c)`. -/
def jsPadStart (l : List Char) (len : ℕ) (c : Char) : List Char :=
  if l.length < len then List.replicate (len - l.length) c ++ l else l

/-- The channel clamp from `adjustBrightness`:
`v < 255 ? v < 1 ? 0 : v : 255`. -/
def jsClamp (v : ℤ) : ℤ := if v < 255 then (if v < 1 then 0 else v) else 255

/-- A valid `#RRGGBB` color string: a hash sign followed by exactly six
hexadecimal digits. -/
def isValidHexColor (s : String) : Bool :=
  match s.data with
  | c :: l => c == '#' && l.length == 6 && l.all isHexDigit
  | [] => false

/-! ## Theme data model (constants/Colors.ts) -/

/-- One `TextStyle` entry of the typography table. -/
structure TextStyle where
  fontSize : ℕ
  fontWeight : String
  lineHeight : ℕ
deriving DecidableEq

/-- The color roles of a theme. -/
structure ThemeColors where
  primary : String
  accent : String
  background : String
  surface : String
  text : String
  textSecondary : String
  border : String
  success : String
  warning : String
  error : String
  tint : String
  icon : String
  tabIconDefault : String
  tabIconSelected : String
deriving DecidableEq

/-- The spacing scale. -/
structure ThemeSpacing where
  xs : ℕ
  sm : ℕ
  md : ℕ
  lg : ℕ
  xl : ℕ
  xxl : ℕ
deriving DecidableEq

/-- The border radius scale. -/
structure ThemeBorderRadius where
  sm : ℕ
  md : ℕ
  lg : ℕ
  xl : ℕ
deriving DecidableEq

/-- The typography table. -/
structure ThemeTypography where
  h1 : TextStyle
  h2 : TextStyle
  body : TextStyle
  caption : TextStyle
  button : TextStyle
deriving DecidableEq

/-- The `ScanzyTheme` interface. -/
structure ScanzyTheme where
  colors : ThemeColors
  spacing : ThemeSpacing
  borderRadius : ThemeBorderRadius
  typography : ThemeTypography
deriving DecidableEq

/-- The typography table shared by both shipped themes. -/
def sharedTypography : ThemeTypography where
  h1 := { fontSize := 32, fontWeight := "bold", lineHeight := 40 }
  h2 := { fontSize := 24, fontWeight := "600", lineHeight := 32 }
  body := { fontSize := 16, fontWeight := "normal", lineHeight := 24 }
  caption := { fontSize := 12, fontWeight := "normal", lineHeight := 16 }
  button := { fontSize := 16, fontWeight := "600", lineHeight := 20 }

/-- The spacing scale shared by both shipped themes. -/
def sharedSpacing : ThemeSpacing where
  xs := 4
  sm := 8
  md := 16
  lg := 24
  xl := 32
  xxl := 48

/-- The border radius scale shared by both shipped themes. -/
def sharedBorderRadius : ThemeBorderRadius where
  sm := 8
  md := 12
  lg := 16
  xl := 24

/-- The shipped light theme. -/
def lightTheme : ScanzyTheme where
  colors :=
    { primary := "#3F51B5"
      accent := "#00695C"
      background := "#F3F7FA"
      surface := "#FFFFFF"
      text := "#1A1A1A"
      textSecondary := "#666666"
      border := "#E0E0E0"
      success := "#4CAF50"
      warning := "#FF9800"
      error := "#F44336"
      tint := "#3F51B5"
      icon := "#666666"
      tabIconDefault := "#666666"
      tabIconSelected := "#3F51B5" }
  spacing := sharedSpacing
  borderRadius := sharedBorderRadius
  typography := sharedTypography

/-- The shipped dark theme. -/
def darkTheme : ScanzyTheme where
  colors :=
    { primary := "#7986CB"
      accent := "#64FFDA"
      background := "#121212"
      surface := "#1E1E1E"
      text := "#FFFFFF"
      textSecondary := "#B0B0B0"
      border := "#333333"
      success := "#4CAF50"
      warning := "#FF9800"
      error := "#F44336"
      tint := "#FFFFFF"
      icon := "#B0B0B0"
      tabIconDefault := "#B0B0B0"
      tabIconSelected := "#FFFFFF" }
  spacing := sharedSpacing
  borderRadius := sharedBorderRadius
  typography := sharedTypography

/-! ## ColorScience (ThemeUtils) -/

/-- The sRGB linearization applied to one 8-bit channel inside
`getLuminance`: divide by 255, then
`c <= 0.03928 ? c / 12.92 : ((c + 0.055) / 1.055) ** 2.4`. -/
noncomputable def srgbLin (c : ℕ) : ℝ :=
  let x : ℝ := c / 255
  if x ≤ 0.03928 then x / 12.92 else ((x + 0.055) / 1.055) ^ (2.4 : ℝ)

/-- The channel triple `(r, g, b)` that `getLuminance` extracts from a hex
color string: `parseInt(hex.slice(1), 16)` then byte shifts and masks. -/
def hexChannels (hex : String) : ℕ × ℕ × ℕ :=
  let rgb := parseHexAcc 0 (hex.data.drop 1)
  ((rgb >>> 16) &&& 0xff, (rgb >>> 8) &&& 0xff, (rgb >>> 0) &&& 0xff)

/-- The inner `getLuminance` helper of the contrast computation: weighted
sum of the linearized channels. -/
noncomputable def getLuminance (hex : String) : ℝ :=
  0.2126 * srgbLin (hexChannels hex).1 + 0.7152 * srgbLin (hexChannels hex).2.1 +
    0.0722 * srgbLin (hexChannels hex).2.2

/-- The contrast computation: `(brightest + 0.05) / (darkest + 0.05)`. -/
noncomputable def getContrastRatio (color1 color2 : String) : ℝ :=
  let lum1 := getLuminance color1
  let lum2 := getLuminance color2
  (max lum1 lum2 + 0.05) / (min lum1 lum2 + 0.05)

/-- `ThemeUtils.meetsAccessibilityStandards`: the contrast ratio reaches the
WCAG AA threshold 4.5. -/
def meetsAccessibilityStandards (foreground background : String) : Prop :=
  getContrastRatio foreground background ≥ 4.5

/-- The report returned by `ThemeUtils.validateThemeAccessibility`. -/
structure ThemeValidation where
  textOnBackground : Prop
  textOnSurface : Prop
  primaryOnBackground : Prop
  accentOnBackground : Prop
  textSecondaryOnBackground : Prop
  allValid : Prop

/-- `ThemeUtils.validateThemeAccessibility`: the five fixed role-pair AA
checks, with `allValid` their conjunction
(`Object.values(results).every(Boolean)`). -/
def validateThemeAccessibility (theme : ScanzyTheme) : ThemeValidation where
  textOnBackground :=
    meetsAccessibilityStandards theme.colors.text theme.colors.background
  textOnSurface :=
    meetsAccessibilityStandards theme.colors.text theme.colors.surface
  primaryOnBackground :=
    meetsAccessibilityStandards theme.colors.primary theme.colors.background
  accentOnBackground :=
    meetsAccessibilityStandards theme.colors.accent theme.colors.background
  textSecondaryOnBackground :=
    meetsAccessibilityStandards theme.colors.textSecondary theme.colors.background
  allValid :=
    meetsAccessibilityStandards theme.colors.text theme.colors.background ∧
    meetsAccessibilityStandards theme.colors.text theme.colors.surface ∧
    meetsAccessibilityStandards theme.colors.primary theme.colors.background ∧
    meetsAccessibilityStandards theme.colors.accent theme.colors.background ∧
    meetsAccessibilityStandards theme.colors.textSecondary theme.colors.background

/-- `ThemeUtils.addAlpha`: append
`Math.round(alpha * 255).toString(16).padStart(2, "0").toUpperCase()`. -/
def addAlpha (hex : String) (alpha : ℚ) : String :=
  let n : ℤ := jsRound (alpha * 255)
  let digits : List Char :=
    if n < 0 then '-' :: jsToString16 n.natAbs else jsToString16 n.toNat
  hex ++ String.mk ((jsPadStart digits 2 '0').map Char.toUpper)

/-- Specification-side description of the alpha suffix: the two-digit
uppercase zero-padded hexadecimal rendering of a byte.  Used to compare
`addAlpha` against the specified format. -/
def hexDigitCharUpper (d : ℕ) : Char :=
  if d < 10 then Char.ofNat (48 + d) else Char.ofNat (55 + d)

/-- The two-digit uppercase hex string for a byte value. -/
def hexByteUpper (n : ℕ) : String :=
  String.mk [hexDigitCharUpper (n / 16), hexDigitCharUpper (n % 16)]

/-- `ThemeUtils.adjustBrightness`: parse the triplet, add
`Math.round(2.55 * percent)` to each channel, clamp with
`v < 255 ? v < 1 ? 0 : v : 255`, and reassemble via
`(0x1000000 + R * 0x10000 + G * 0x100 + B).toString(16).slice(1)`. -/
def adjustBrightness (hex : String) (percent : ℚ) : String :=
  let num := parseHexAcc 0 (hex.data.drop 1)
  let amt := jsRound (2.55 * percent)
  let R : ℤ := (num >>> 16 : ℕ) + amt
  let G : ℤ := ((num >>> 8) &&& 0xff : ℕ) + amt
  let B : ℤ := ((num &&& 0xff : ℕ)) + amt
  String.mk ('#' ::
    (jsToString16 (0x1000000 + (jsClamp R).toNat * 0x10000 + (jsClamp G).toNat * 0x100 +
      (jsClamp B).toNat)).drop 1)

/-! ## Theme preference resolver (contexts/ThemeContext.tsx)

The resolver is a React provider; we embed it as a transition system.  A
JavaScript runtime value that can reach the `isDark` state cell is modelled
by `Option Json` (`none` is `undefined`); the persisted preference record is
modelled in parsed form (`JSON.stringify` followed by `JSON.parse` is the
identity on the values this code writes). -/

/-- Parsed JSON values (the image of `JSON.parse`). -/
inductive Json where
  | jnull : Json
  | jbool (b : Bool) : Json
  | jnum (q : ℚ) : Json
  | jstr (s : String) : Json
  | jobj (fields : List (String × Json)) : Json

/-- Property lookup on a JavaScript object: first binding wins, absent keys
give `undefined` (`none`). -/
def jsGet : List (String × Json) → String → Option Json
  | [], _ => none
  | (k, v) :: rest, key => if k = key then some v else jsGet rest key

/-- JavaScript truthiness of a value that may be `undefined` (`none`). -/
def jsTruthy : Option Json → Bool
  | none => false
  | some Json.jnull => false
  | some (Json.jbool b) => b
  | some (Json.jnum q) => if q = 0 then false else true
  | some (Json.jstr s) => if s = "" then false else true
  | some (Json.jobj _) => true

/-- The storage key used for the preference record. -/
def THEME_STORAGE_KEY : String := "@scanzy_theme_preference"

/-- The in-memory provider state: the two `useState` cells.  `isDark` is
declared `boolean` in the source but `setIsDark(preference.isDark)` can
store any parsed value, including `undefined`, so the cell holds
`Option Json`. -/
structure ResolverState where
  isDark : Option Json
  isLoading : Bool

/-- The provider state together with the content of the external store
under `THEME_STORAGE_KEY` (`none` when no record exists). -/
structure SystemState where
  resolver : ResolverState
  store : Option Json

/-- Outcome of the single `AsyncStorage.getItem` read, as observed by
`loadThemePreference` when it resumes:
`readError` (the promise rejected), `noRecord` (a falsy value: `null` or
the empty string), `malformed` (a string on which `JSON.parse` throws), or
`record v` (a string parsing to the value `v`). -/
inductive ReadOutcome where
  | readError : ReadOutcome
  | noRecord : ReadOutcome
  | malformed : ReadOutcome
  | record (v : Json) : ReadOutcome

/-- The resolver state update performed by `loadThemePreference` when the
read completes.  `seed` is the captured `systemColorScheme === "dark"`.
On a parsed record the code runs `setIsDark(preference.isDark)` with no
validation: property access on an object looks the field up, on `null` it
would throw a `TypeError` (caught, falling back to the seed), and on any
other primitive it yields `undefined`.  The `finally` clause always clears
`isLoading`. -/
def loadThemePreference (seed : Bool) (o : ReadOutcome) : ResolverState :=
  match o with
  | ReadOutcome.readError => { isDark := some (Json.jbool seed), isLoading := false }
  | ReadOutcome.noRecord => { isDark := some (Json.jbool seed), isLoading := false }
  | ReadOutcome.malformed => { isDark := some (Json.jbool seed), isLoading := false }
  | ReadOutcome.record (Json.jobj fields) =>
      { isDark := jsGet fields "isDark", isLoading := false }
  | ReadOutcome.record Json.jnull =>
      { isDark := some (Json.jbool seed), isLoading := false }
  | ReadOutcome.record _ => { isDark := none, isLoading := false }

/-- The preference record written by `saveThemePreference`
(`{isDark: darkMode, lastUpdated: new Date()}`, in parsed form). -/
def prefRecord (darkMode : Bool) (now : String) : Json :=
  Json.jobj [("isDark", Json.jbool darkMode), ("lastUpdated", Json.jstr now)]

/-- Effect of `saveThemePreference` on the store: on success the record
overwrites whatever was there; a failed write is logged and ignored. -/
def saveThemePreference (darkMode : Bool) (now : String) (writeOk : Bool)
    (store : Option Json) : Option Json :=
  if writeOk then some (prefRecord darkMode now) else store

/-- `toggleTheme`: compute `newIsDark = !isDark` from the current value,
apply it synchronously, then fire the asynchronous write. -/
def toggleTheme (now : String) (writeOk : Bool) (st : SystemState) : SystemState :=
  let newIsDark := ! jsTruthy st.resolver.isDark
  { resolver := { isDark := some (Json.jbool newIsDark),
                  isLoading := st.resolver.isLoading },
    store := saveThemePreference newIsDark now writeOk st.store }

/-- An observable event in the life of the provider: the pending load
completes, or the consumer calls `toggleTheme` (with the eventual outcome
`writeOk` of its write). -/
inductive Event where
  | load (o : ReadOutcome) : Event
  | toggle (now : String) (writeOk : Bool) : Event

/-- Is this event the completion of the startup load?  (The provider
performs exactly one load per lifetime, so a full run contains exactly one
such event.) -/
def isLoadEvent : Event → Bool
  | Event.load _ => true
  | Event.toggle _ _ => false

/-- One transition. -/
def step (seed : Bool) (st : SystemState) : Event → SystemState
  | Event.load o => { st with resolver := loadThemePreference seed o }
  | Event.toggle now writeOk => toggleTheme now writeOk st

/-- The platform seed: `systemColorScheme === "dark"`, where
`useColorScheme()` returns `"light"`, `"dark"` or `null`/`undefined`
(modelled as `none`). -/
def platformSeed (scheme : Option String) : Bool := scheme == some "dark"

/-- The state at mount: `isDark` seeded from the platform scheme,
`isLoading` true, the store holding `store0`. -/
def initState (scheme : Option String) (store0 : Option Json) : SystemState :=
  { resolver := { isDark := some (Json.jbool (platformSeed scheme)), isLoading := true },
    store := store0 }

/-- The state after a sequence of events. -/
def run (scheme : Option String) (store0 : Option Json) (evs : List Event) : SystemState :=
  evs.foldl (step (platformSeed scheme)) (initState scheme store0)

/-- The context value the provider exposes on each render:
`theme = isDark ? darkTheme : lightTheme`, recomputed from the state. -/
structure ThemeContextValue where
  theme : ScanzyTheme
  isDark : Option Json
  isLoading : Bool

/-- Build the exposed context value from the current state. -/
def contextValue (st : SystemState) : ThemeContextValue where
  theme := if jsTruthy st.resolver.isDark then darkTheme else lightTheme
  isDark := st.resolver.isDark
  isLoading := st.resolver.isLoading

/-! ## Hexadecimal digit lemmas -/

theorem hexDigitVal_digit (c : Char) (h1 : 48 ≤ c.toNat) (h2 : c.toNat ≤ 57) :
    hexDigitVal c = c.toNat - 48 := by
  unfold hexDigitVal
  split_ifs <;> simp_all <;> omega

theorem hexDigitVal_lower (c : Char) (h1 : 97 ≤ c.toNat) (h2 : c.toNat ≤ 102) :
    hexDigitVal c = c.toNat - 87 := by
  unfold hexDigitVal
  split_ifs <;> simp_all <;> omega

theorem hexDigitVal_upper (c : Char) (h1 : 65 ≤ c.toNat) (h2 : c.toNat ≤ 70) :
    hexDigitVal c = c.toNat - 55 := by
  unfold hexDigitVal
  split_ifs <;> simp_all <;> omega

theorem isHexDigit_cases (c : Char) (h : isHexDigit c = true) :
    (48 ≤ c.toNat ∧ c.toNat ≤ 57) ∨ (97 ≤ c.toNat ∧ c.toNat ≤ 102) ∨
      (65 ≤ c.toNat ∧ c.toNat ≤ 70) := by
  unfold isHexDigit at h
  simp only [Bool.or_eq_true, Bool.and_eq_true, decide_eq_true_eq] at h
  tauto

theorem hexDigitVal_lt (c : Char) (h : isHexDigit c = true) : hexDigitVal c < 16 := by
  rcases isHexDigit_cases c h with ⟨h1, h2⟩ | ⟨h1, h2⟩ | ⟨h1, h2⟩
  · rw [hexDigitVal_digit c h1 h2]; omega
  · rw [hexDigitVal_lower c h1 h2]; omega
  · rw [hexDigitVal_upper c h1 h2]; omega

theorem char_toLower_small (c : Char) (h : c.toNat ≤ 64) : c.toLower = c := by
  unfold Char.toLower
  rw [if_neg (by omega)]

theorem char_toLower_big (c : Char) (h : 90 < c.toNat) : c.toLower = c := by
  unfold Char.toLower
  rw [if_neg (by omega)]

theorem char_toLower_upper (c : Char) (h1 : 65 ≤ c.toNat) (h2 : c.toNat ≤ 90) :
    c.toLower = Char.ofNat (c.toNat + 32) := by
  unfold Char.toLower
  rw [if_pos (by omega)]

theorem hexDigitChar_hexDigitVal (c : Char) (h : isHexDigit c = true) :
    hexDigitChar (hexDigitVal c) = c.toLower := by
  rcases isHexDigit_cases c h with ⟨h1, h2⟩ | ⟨h1, h2⟩ | ⟨h1, h2⟩
  · rw [hexDigitVal_digit c h1 h2]
    unfold hexDigitChar
    rw [if_pos (by omega)]
    rw [char_toLower_small c (by omega)]
    have e : 48 + (c.toNat - 48) = c.toNat := by omega
    rw [e, Char.ofNat_toNat]
  · rw [hexDigitVal_lower c h1 h2]
    unfold hexDigitChar
    rw [if_neg (by omega)]
    rw [char_toLower_big c (by omega)]
    have e : 87 + (c.toNat - 87) = c.toNat := by omega
    rw [e, Char.ofNat_toNat]
  · rw [hexDigitVal_upper c h1 h2]
    unfold hexDigitChar
    rw [if_neg (by omega)]
    rw [char_toLower_upper c h1 (by omega)]
    congr 1
    omega

theorem isHexDigit_hexDigitChar : ∀ d, d < 16 → isHexDigit (hexDigitChar d) = true := by
  decide

theorem hexDigitChar_one : hexDigitChar 1 = '1' := by decide

/-! ## Parsing and printing of six-digit hex strings -/

theorem parseHexAcc_cons (acc : ℕ) (c : Char) (cs : List Char)
    (h : isHexDigit c = true) :
    parseHexAcc acc (c :: cs) = parseHexAcc (16 * acc + hexDigitVal c) cs := by
  rw [parseHexAcc]
  rw [if_pos h]

theorem parseHexAcc_six (c1 c2 c3 c4 c5 c6 : Char)
    (h1 : isHexDigit c1 = true) (h2 : isHexDigit c2 = true)
    (h3 : isHexDigit c3 = true) (h4 : isHexDigit c4 = true)
    (h5 : isHexDigit c5 = true) (h6 : isHexDigit c6 = true) :
    parseHexAcc 0 [c1, c2, c3, c4, c5, c6] =
      hexDigitVal c1 * 1048576 + hexDigitVal c2 * 65536 + hexDigitVal c3 * 4096 +
        hexDigitVal c4 * 256 + hexDigitVal c5 * 16 + hexDigitVal c6 := by
  rw [parseHexAcc_cons _ _ _ h1, parseHexAcc_cons _ _ _ h2, parseHexAcc_cons _ _ _ h3,
    parseHexAcc_cons _ _ _ h4, parseHexAcc_cons _ _ _ h5, parseHexAcc_cons _ _ _ h6]
  unfold parseHexAcc
  ring

theorem natToHexAux_step (fuel n : ℕ) (hf : fuel ≠ 0) (h : 16 ≤ n) :
    natToHexAux fuel n = natToHexAux (fuel - 1) (n / 16) ++ [hexDigitChar (n % 16)] := by
  obtain ⟨k, rfl⟩ : ∃ k, fuel = k + 1 := ⟨fuel - 1, by omega⟩
  rw [natToHexAux]
  rw [if_neg (by omega)]
  simp

theorem natToHexAux_last (fuel n : ℕ) (hf : fuel ≠ 0) (h : n < 16) :
    natToHexAux fuel n = [hexDigitChar n] := by
  obtain ⟨k, rfl⟩ : ∃ k, fuel = k + 1 := ⟨fuel - 1, by omega⟩
  rw [natToHexAux]
  rw [if_pos h]

theorem jsToString16_hex6 (n : ℕ) (h : n < 16777216) :
    jsToString16 (16777216 + n) =
      ['1', hexDigitChar (n / 1048576), hexDigitChar (n / 65536 % 16),
        hexDigitChar (n / 4096 % 16), hexDigitChar (n / 256 % 16),
        hexDigitChar (n / 16 % 16), hexDigitChar (n % 16)] := by
  unfold jsToString16
  rw [natToHexAux_step _ _ (by omega) (by omega)]
  have e1 : (16777216 + n) / 16 = 1048576 + n / 16 := by omega
  have m1 : (16777216 + n) % 16 = n % 16 := by omega
  rw [e1, m1, natToHexAux_step _ _ (by omega) (by omega)]
  have e2 : (1048576 + n / 16) / 16 = 65536 + n / 256 := by omega
  have m2 : (1048576 + n / 16) % 16 = n / 16 % 16 := by omega
  rw [e2, m2, natToHexAux_step _ _ (by omega) (by omega)]
  have e3 : (65536 + n / 256) / 16 = 4096 + n / 4096 := by omega
  have m3 : (65536 + n / 256) % 16 = n / 256 % 16 := by omega
  rw [e3, m3, natToHexAux_step _ _ (by omega) (by omega)]
  have e4 : (4096 + n / 4096) / 16 = 256 + n / 65536 := by omega
  have m4 : (4096 + n / 4096) % 16 = n / 4096 % 16 := by omega
  rw [e4, m4, natToHexAux_step _ _ (by omega) (by omega)]
  have e5 : (256 + n / 65536) / 16 = 16 + n / 1048576 := by omega
  have m5 : (256 + n / 65536) % 16 = n / 65536 % 16 := by omega
  rw [e5, m5, natToHexAux_step _ _ (by omega) (by omega)]
  have e6 : (16 + n / 1048576) / 16 = 1 := by omega
  have m6 : (16 + n / 1048576) % 16 = n / 1048576 := by omega
  rw [e6, m6, natToHexAux_last _ _ (by omega) (by omega)]
  rw [hexDigitChar_one]
  simp

theorem jsClamp_of_mem (v : ℤ) (h0 : 0 ≤ v) (h255 : v ≤ 255) : jsClamp v = v := by
  unfold jsClamp
  split_ifs <;> omega

theorem jsClamp_nonneg (v : ℤ) : 0 ≤ jsClamp v := by
  unfold jsClamp
  split_ifs <;> omega

theorem jsClamp_le (v : ℤ) : jsClamp v ≤ 255 := by
  unfold jsClamp
  split_ifs <;> omega

/-- Any valid color string decomposes into a hash sign and six digits. -/
theorem validHex_decomp (s : String) (h : isValidHexColor s = true) :
    ∃ c1 c2 c3 c4 c5 c6, s.data = ['#', c1, c2, c3, c4, c5, c6] ∧
      isHexDigit c1 = true ∧ isHexDigit c2 = true ∧ isHexDigit c3 = true ∧
      isHexDigit c4 = true ∧ isHexDigit c5 = true ∧ isHexDigit c6 = true := by
  obtain ⟨data⟩ := s
  unfold isValidHexColor at h
  rcases data with _ | ⟨c, l⟩
  · simp at h
  simp only [Bool.and_eq_true, beq_iff_eq, List.all_eq_true] at h
  obtain ⟨⟨hc, hlen⟩, hall⟩ := h
  subst hc
  rcases l with _ | ⟨a1, _ | ⟨a2, _ | ⟨a3, _ | ⟨a4, _ | ⟨a5, _ | ⟨a6, _ | ⟨a7, t⟩⟩⟩⟩⟩⟩⟩
  all_goals simp only [List.length_nil, List.length_cons] at hlen
  all_goals try omega
  refine ⟨a1, a2, a3, a4, a5, a6, rfl, ?_, ?_, ?_, ?_, ?_, ?_⟩ <;> exact hall _ (by simp)

theorem hexDigitVal_hexDigitChar : ∀ d, d < 16 → hexDigitVal (hexDigitChar d) = d := by
  decide

theorem hexChannels_six (c1 c2 c3 c4 c5 c6 : Char)
    (h1 : isHexDigit c1 = true) (h2 : isHexDigit c2 = true)
    (h3 : isHexDigit c3 = true) (h4 : isHexDigit c4 = true)
    (h5 : isHexDigit c5 = true) (h6 : isHexDigit c6 = true) :
    hexChannels (String.mk ['#', c1, c2, c3, c4, c5, c6]) =
      (hexDigitVal c1 * 16 + hexDigitVal c2, hexDigitVal c3 * 16 + hexDigitVal c4,
        hexDigitVal c5 * 16 + hexDigitVal c6) := by
  have hv1 := hexDigitVal_lt c1 h1
  have hv2 := hexDigitVal_lt c2 h2
  have hv3 := hexDigitVal_lt c3 h3
  have hv4 := hexDigitVal_lt c4 h4
  have hv5 := hexDigitVal_lt c5 h5
  have hv6 := hexDigitVal_lt c6 h6
  simp only [hexChannels]
  have hd : (String.mk ['#', c1, c2, c3, c4, c5, c6]).data.drop 1 =
      [c1, c2, c3, c4, c5, c6] := rfl
  rw [hd, parseHexAcc_six c1 c2 c3 c4 c5 c6 h1 h2 h3 h4 h5 h6]
  generalize hexDigitVal c1 = v1 at hv1 ⊢
  generalize hexDigitVal c2 = v2 at hv2 ⊢
  generalize hexDigitVal c3 = v3 at hv3 ⊢
  generalize hexDigitVal c4 = v4 at hv4 ⊢
  generalize hexDigitVal c5 = v5 at hv5 ⊢
  generalize hexDigitVal c6 = v6 at hv6 ⊢
  have e255 : (255 : ℕ) = 2 ^ 8 - 1 := by norm_num
  rw [Nat.shiftRight_eq_div_pow, Nat.shiftRight_eq_div_pow, Nat.shiftRight_eq_div_pow]
  rw [e255, Nat.and_pow_two_sub_one_eq_mod, Nat.and_pow_two_sub_one_eq_mod,
    Nat.and_pow_two_sub_one_eq_mod]
  norm_num
  omega

theorem adjustBrightness_six (c1 c2 c3 c4 c5 c6 : Char) (p : ℚ)
    (h1 : isHexDigit c1 = true) (h2 : isHexDigit c2 = true)
    (h3 : isHexDigit c3 = true) (h4 : isHexDigit c4 = true)
    (h5 : isHexDigit c5 = true) (h6 : isHexDigit c6 = true) :
    adjustBrightness (String.mk ['#', c1, c2, c3, c4, c5, c6]) p =
      String.mk ['#',
        hexDigitChar
          ((jsClamp (((hexDigitVal c1 * 16 + hexDigitVal c2 : ℕ) : ℤ) + jsRound (2.55 * p))).toNat / 16),
        hexDigitChar
          ((jsClamp (((hexDigitVal c1 * 16 + hexDigitVal c2 : ℕ) : ℤ) + jsRound (2.55 * p))).toNat % 16),
        hexDigitChar
          ((jsClamp (((hexDigitVal c3 * 16 + hexDigitVal c4 : ℕ) : ℤ) + jsRound (2.55 * p))).toNat / 16),
        hexDigitChar
          ((jsClamp (((hexDigitVal c3 * 16 + hexDigitVal c4 : ℕ) : ℤ) + jsRound (2.55 * p))).toNat % 16),
        hexDigitChar
          ((jsClamp (((hexDigitVal c5 * 16 + hexDigitVal c6 : ℕ) : ℤ) + jsRound (2.55 * p))).toNat / 16),
        hexDigitChar
          ((jsClamp (((hexDigitVal c5 * 16 + hexDigitVal c6 : ℕ) : ℤ) + jsRound (2.55 * p))).toNat % 16)] := by
  have hv1 := hexDigitVal_lt c1 h1
  have hv2 := hexDigitVal_lt c2 h2
  have hv3 := hexDigitVal_lt c3 h3
  have hv4 := hexDigitVal_lt c4 h4
  have hv5 := hexDigitVal_lt c5 h5
  have hv6 := hexDigitVal_lt c6 h6
  simp only [adjustBrightness]
  have hd : (String.mk ['#', c1, c2, c3, c4, c5, c6]).data.drop 1 =
      [c1, c2, c3, c4, c5, c6] := rfl
  rw [hd, parseHexAcc_six c1 c2 c3 c4 c5 c6 h1 h2 h3 h4 h5 h6]
  generalize hexDigitVal c1 = v1 at hv1 ⊢
  generalize hexDigitVal c2 = v2 at hv2 ⊢
  generalize hexDigitVal c3 = v3 at hv3 ⊢
  generalize hexDigitVal c4 = v4 at hv4 ⊢
  generalize hexDigitVal c5 = v5 at hv5 ⊢
  generalize hexDigitVal c6 = v6 at hv6 ⊢
  generalize jsRound (2.55 * p) = amt
  have hR : (v1 * 1048576 + v2 * 65536 + v3 * 4096 + v4 * 256 + v5 * 16 + v6) >>> 16 =
      v1 * 16 + v2 := by
    rw [Nat.shiftRight_eq_div_pow]
    norm_num
    omega
  have hG : ((v1 * 1048576 + v2 * 65536 + v3 * 4096 + v4 * 256 + v5 * 16 + v6) >>> 8) &&& 255 =
      v3 * 16 + v4 := by
    have e255 : (255 : ℕ) = 2 ^ 8 - 1 := by norm_num
    rw [Nat.shiftRight_eq_div_pow, e255, Nat.and_pow_two_sub_one_eq_mod]
    norm_num
    omega
  have hB : (v1 * 1048576 + v2 * 65536 + v3 * 4096 + v4 * 256 + v5 * 16 + v6) &&& 255 =
      v5 * 16 + v6 := by
    have e255 : (255 : ℕ) = 2 ^ 8 - 1 := by norm_num
    rw [e255, Nat.and_pow_two_sub_one_eq_mod]
    omega
  rw [hR, hG, hB]
  have cRa := jsClamp_nonneg (((v1 * 16 + v2 : ℕ) : ℤ) + amt)
  have cRb := jsClamp_le (((v1 * 16 + v2 : ℕ) : ℤ) + amt)
  have cGa := jsClamp_nonneg (((v3 * 16 + v4 : ℕ) : ℤ) + amt)
  have cGb := jsClamp_le (((v3 * 16 + v4 : ℕ) : ℤ) + amt)
  have cBa := jsClamp_nonneg (((v5 * 16 + v6 : ℕ) : ℤ) + amt)
  have cBb := jsClamp_le (((v5 * 16 + v6 : ℕ) : ℤ) + amt)
  generalize jsClamp (((v1 * 16 + v2 : ℕ) : ℤ) + amt) = R at cRa cRb ⊢
  generalize jsClamp (((v3 * 16 + v4 : ℕ) : ℤ) + amt) = G at cGa cGb ⊢
  generalize jsClamp (((v5 * 16 + v6 : ℕ) : ℤ) + amt) = B at cBa cBb ⊢
  have hRn : R.toNat ≤ 255 := by omega
  have hGn : G.toNat ≤ 255 := by omega
  have hBn : B.toNat ≤ 255 := by omega
  have e : 16777216 + R.toNat * 65536 + G.toNat * 256 + B.toNat =
      16777216 + (R.toNat * 65536 + G.toNat * 256 + B.toNat) := by ring
  rw [e, jsToString16_hex6 _ (by omega)]
  refine congrArg String.mk ?_
  simp only [List.drop_succ_cons, List.drop_zero, List.cons.injEq]
  and_intros <;> first | trivial | exact congrArg hexDigitChar (by omega)

theorem jsRound_two55_zero : jsRound (2.55 * 0) = 0 := by
  norm_num [jsRound]

/-- C6 (amended): for every valid hash-RRGGBB hex color, `adjustBrightness`
at percent 0 returns the input with its hexadecimal digits lowercased
(`Number.toString(16)` prints lowercase digits); it returns the input
unchanged exactly when the input digits are already lowercase. -/
theorem claim_C6_adjustBrightness_zero_toLower (s : String)
    (h : isValidHexColor s = true) :
    adjustBrightness s 0 = String.mk (s.data.map Char.toLower) := by
  obtain ⟨c1, c2, c3, c4, c5, c6, hdata, h1, h2, h3, h4, h5, h6⟩ := validHex_decomp s h
  obtain ⟨data⟩ := s
  replace hdata : data = ['#', c1, c2, c3, c4, c5, c6] := hdata
  subst hdata
  rw [adjustBrightness_six c1 c2 c3 c4 c5 c6 0 h1 h2 h3 h4 h5 h6]
  have hv1 := hexDigitVal_lt c1 h1
  have hv2 := hexDigitVal_lt c2 h2
  have hv3 := hexDigitVal_lt c3 h3
  have hv4 := hexDigitVal_lt c4 h4
  have hv5 := hexDigitVal_lt c5 h5
  have hv6 := hexDigitVal_lt c6 h6
  have m12 : (jsClamp (((hexDigitVal c1 * 16 + hexDigitVal c2 : ℕ) : ℤ) +
      jsRound (2.55 * 0))).toNat = hexDigitVal c1 * 16 + hexDigitVal c2 := by
    rw [jsRound_two55_zero, add_zero, jsClamp_of_mem _ (by omega) (by omega)]
    omega
  have m34 : (jsClamp (((hexDigitVal c3 * 16 + hexDigitVal c4 : ℕ) : ℤ) +
      jsRound (2.55 * 0))).toNat = hexDigitVal c3 * 16 + hexDigitVal c4 := by
    rw [jsRound_two55_zero, add_zero, jsClamp_of_mem _ (by omega) (by omega)]
    omega
  have m56 : (jsClamp (((hexDigitVal c5 * 16 + hexDigitVal c6 : ℕ) : ℤ) +
      jsRound (2.55 * 0))).toNat = hexDigitVal c5 * 16 + hexDigitVal c6 := by
    rw [jsRound_two55_zero, add_zero, jsClamp_of_mem _ (by omega) (by omega)]
    omega
  rw [m12, m34, m56]
  have d1 : (hexDigitVal c1 * 16 + hexDigitVal c2) / 16 = hexDigitVal c1 := by omega
  have d2 : (hexDigitVal c1 * 16 + hexDigitVal c2) % 16 = hexDigitVal c2 := by omega
  have d3 : (hexDigitVal c3 * 16 + hexDigitVal c4) / 16 = hexDigitVal c3 := by omega
  have d4 : (hexDigitVal c3 * 16 + hexDigitVal c4) % 16 = hexDigitVal c4 := by omega
  have d5 : (hexDigitVal c5 * 16 + hexDigitVal c6) / 16 = hexDigitVal c5 := by omega
  have d6 : (hexDigitVal c5 * 16 + hexDigitVal c6) % 16 = hexDigitVal c6 := by omega
  rw [d1, d2, d3, d4, d5, d6]
  rw [hexDigitChar_hexDigitVal c1 h1, hexDigitChar_hexDigitVal c2 h2,
    hexDigitChar_hexDigitVal c3 h3, hexDigitChar_hexDigitVal c4 h4,
    hexDigitChar_hexDigitVal c5 h5, hexDigitChar_hexDigitVal c6 h6]
  simp only [List.map_cons, List.map_nil]
  rw [show ('#').toLower = '#' from by decide]

/-- C6 counterexample: on an uppercase input the zero-adjustment result is
the lowercased string, not the input itself. -/
theorem claim_C6_counterexample :
    isValidHexColor "#FF0000" = true ∧ adjustBrightness "#FF0000" 0 ≠ "#FF0000" ∧
      adjustBrightness "#FF0000" 0 = "#ff0000" := by
  refine ⟨by decide, ?_, ?_⟩
  · simp only [adjustBrightness, jsRound_two55_zero]
    decide
  · simp only [adjustBrightness, jsRound_two55_zero]
    decide

/-- C6 witness: a concrete lowercase input on which the amended claim
evaluates. -/
theorem claim_C6_witness :
    isValidHexColor "#aabb09" = true ∧
      adjustBrightness "#aabb09" 0 = String.mk ("#aabb09".data.map Char.toLower) :=
  ⟨by decide, claim_C6_adjustBrightness_zero_toLower "#aabb09" (by decide)⟩

theorem isValidHexColor_mk (d1 d2 d3 d4 d5 d6 : Char)
    (h1 : isHexDigit d1 = true) (h2 : isHexDigit d2 = true)
    (h3 : isHexDigit d3 = true) (h4 : isHexDigit d4 = true)
    (h5 : isHexDigit d5 = true) (h6 : isHexDigit d6 = true) :
    isValidHexColor (String.mk ['#', d1, d2, d3, d4, d5, d6]) = true := by
  simp [isValidHexColor, h1, h2, h3, h4, h5, h6]

/-- C7: on a valid color and any percent in the specified range, the result
of `adjustBrightness` is again a valid color whose three channels are
exactly the clamp of the input channels shifted by `round(2.55 * percent)`
(the clamp sends pre-clamp values below 1 to 0 and values at or above 255
to 255), and in particular every channel of the result lies in [0, 255]. -/
theorem claim_C7_adjustBrightness_channel_bounds (s : String) (p : ℚ)
    (hs : isValidHexColor s = true) (hp1 : -100 ≤ p) (hp2 : p ≤ 100) :
    isValidHexColor (adjustBrightness s p) = true ∧
      hexChannels (adjustBrightness s p) =
        ((jsClamp (((hexChannels s).1 : ℤ) + jsRound (2.55 * p))).toNat,
          (jsClamp (((hexChannels s).2.1 : ℤ) + jsRound (2.55 * p))).toNat,
          (jsClamp (((hexChannels s).2.2 : ℤ) + jsRound (2.55 * p))).toNat) ∧
      (hexChannels (adjustBrightness s p)).1 ≤ 255 ∧
      (hexChannels (adjustBrightness s p)).2.1 ≤ 255 ∧
      (hexChannels (adjustBrightness s p)).2.2 ≤ 255 := by
  obtain ⟨c1, c2, c3, c4, c5, c6, hdata, h1, h2, h3, h4, h5, h6⟩ := validHex_decomp s hs
  obtain ⟨data⟩ := s
  replace hdata : data = ['#', c1, c2, c3, c4, c5, c6] := hdata
  subst hdata
  have hv1 := hexDigitVal_lt c1 h1
  have hv2 := hexDigitVal_lt c2 h2
  have hv3 := hexDigitVal_lt c3 h3
  have hv4 := hexDigitVal_lt c4 h4
  have hv5 := hexDigitVal_lt c5 h5
  have hv6 := hexDigitVal_lt c6 h6
  rw [adjustBrightness_six c1 c2 c3 c4 c5 c6 p h1 h2 h3 h4 h5 h6,
    hexChannels_six c1 c2 c3 c4 c5 c6 h1 h2 h3 h4 h5 h6]
  have cRa := jsClamp_nonneg (((hexDigitVal c1 * 16 + hexDigitVal c2 : ℕ) : ℤ) + jsRound (2.55 * p))
  have cRb := jsClamp_le (((hexDigitVal c1 * 16 + hexDigitVal c2 : ℕ) : ℤ) + jsRound (2.55 * p))
  have cGa := jsClamp_nonneg (((hexDigitVal c3 * 16 + hexDigitVal c4 : ℕ) : ℤ) + jsRound (2.55 * p))
  have cGb := jsClamp_le (((hexDigitVal c3 * 16 + hexDigitVal c4 : ℕ) : ℤ) + jsRound (2.55 * p))
  have cBa := jsClamp_nonneg (((hexDigitVal c5 * 16 + hexDigitVal c6 : ℕ) : ℤ) + jsRound (2.55 * p))
  have cBb := jsClamp_le (((hexDigitVal c5 * 16 + hexDigitVal c6 : ℕ) : ℤ) + jsRound (2.55 * p))
  generalize jsClamp (((hexDigitVal c1 * 16 + hexDigitVal c2 : ℕ) : ℤ) + jsRound (2.55 * p)) = R
    at cRa cRb ⊢
  generalize jsClamp (((hexDigitVal c3 * 16 + hexDigitVal c4 : ℕ) : ℤ) + jsRound (2.55 * p)) = G
    at cGa cGb ⊢
  generalize jsClamp (((hexDigitVal c5 * 16 + hexDigitVal c6 : ℕ) : ℤ) + jsRound (2.55 * p)) = B
    at cBa cBb ⊢
  have w1 : R.toNat / 16 < 16 := by omega
  have w2 : R.toNat % 16 < 16 := by omega
  have w3 : G.toNat / 16 < 16 := by omega
  have w4 : G.toNat % 16 < 16 := by omega
  have w5 : B.toNat / 16 < 16 := by omega
  have w6 : B.toNat % 16 < 16 := by omega
  refine ⟨isValidHexColor_mk _ _ _ _ _ _ (isHexDigit_hexDigitChar _ w1)
      (isHexDigit_hexDigitChar _ w2) (isHexDigit_hexDigitChar _ w3)
      (isHexDigit_hexDigitChar _ w4) (isHexDigit_hexDigitChar _ w5)
      (isHexDigit_hexDigitChar _ w6), ?_, ?_, ?_, ?_⟩
  · rw [hexChannels_six _ _ _ _ _ _ (isHexDigit_hexDigitChar _ w1)
      (isHexDigit_hexDigitChar _ w2) (isHexDigit_hexDigitChar _ w3)
      (isHexDigit_hexDigitChar _ w4) (isHexDigit_hexDigitChar _ w5)
      (isHexDigit_hexDigitChar _ w6)]
    rw [hexDigitVal_hexDigitChar _ w1, hexDigitVal_hexDigitChar _ w2,
      hexDigitVal_hexDigitChar _ w3, hexDigitVal_hexDigitChar _ w4,
      hexDigitVal_hexDigitChar _ w5, hexDigitVal_hexDigitChar _ w6]
    simp only [Prod.mk.injEq]
    exact ⟨by omega, by omega, by omega⟩
  all_goals
    rw [hexChannels_six _ _ _ _ _ _ (isHexDigit_hexDigitChar _ w1)
      (isHexDigit_hexDigitChar _ w2) (isHexDigit_hexDigitChar _ w3)
      (isHexDigit_hexDigitChar _ w4) (isHexDigit_hexDigitChar _ w5)
      (isHexDigit_hexDigitChar _ w6)]
  all_goals
    rw [hexDigitVal_hexDigitChar _ w1, hexDigitVal_hexDigitChar _ w2,
      hexDigitVal_hexDigitChar _ w3, hexDigitVal_hexDigitChar _ w4,
      hexDigitVal_hexDigitChar _ w5, hexDigitVal_hexDigitChar _ w6]
  all_goals dsimp only
  all_goals omega

/-- C7 witness: the channel description evaluated on a concrete color and
percent. -/
theorem claim_C7_witness :
    isValidHexColor "#808080" = true ∧ -100 ≤ (20 : ℚ) ∧ (20 : ℚ) ≤ 100 ∧
      (isValidHexColor (adjustBrightness "#808080" 20) = true ∧
        hexChannels (adjustBrightness "#808080" 20) =
          ((jsClamp (((hexChannels "#808080").1 : ℤ) + jsRound (2.55 * 20))).toNat,
            (jsClamp (((hexChannels "#808080").2.1 : ℤ) + jsRound (2.55 * 20))).toNat,
            (jsClamp (((hexChannels "#808080").2.2 : ℤ) + jsRound (2.55 * 20))).toNat) ∧
        (hexChannels (adjustBrightness "#808080" 20)).1 ≤ 255 ∧
        (hexChannels (adjustBrightness "#808080" 20)).2.1 ≤ 255 ∧
        (hexChannels (adjustBrightness "#808080" 20)).2.2 ≤ 255) :=
  ⟨by decide, by norm_num, by norm_num,
    claim_C7_adjustBrightness_channel_bounds "#808080" 20 (by decide) (by norm_num)
      (by norm_num)⟩

/-! ## addAlpha -/

theorem toUpper_hexDigitChar : ∀ d, d < 16 →
    (hexDigitChar d).toUpper = hexDigitCharUpper d := by
  decide

theorem zero_toUpper : ('0').toUpper = '0' := by decide

/-- The alpha suffix produced for a byte value `0 <= n <= 255` is the
two-digit uppercase zero-padded hexadecimal rendering of `n`. -/
theorem addAlpha_suffix (n : ℤ) (h0 : 0 ≤ n) (h255 : n ≤ 255) :
    ((jsPadStart (if n < 0 then '-' :: jsToString16 n.natAbs else jsToString16 n.toNat)
        2 '0').map Char.toUpper) =
      [hexDigitCharUpper (n.toNat / 16), hexDigitCharUpper (n.toNat % 16)] := by
  rw [if_neg (by omega)]
  rcases Nat.lt_or_ge n.toNat 16 with hlt | hge
  · unfold jsToString16
    rw [natToHexAux_last _ _ (by omega) hlt]
    unfold jsPadStart
    rw [if_pos (by simp)]
    simp only [List.length_cons, List.length_nil]
    norm_num
    constructor
    · rw [show n.toNat / 16 = 0 from by omega]
      decide
    · rw [show n.toNat % 16 = n.toNat from by omega]
      exact toUpper_hexDigitChar _ hlt
  · unfold jsToString16
    rw [natToHexAux_step _ _ (by omega) hge]
    rw [natToHexAux_last _ _ (by omega) (by omega)]
    unfold jsPadStart
    rw [if_neg (by simp)]
    rw [List.cons_append, List.nil_append, List.map_cons, List.map_cons, List.map_nil]
    rw [toUpper_hexDigitChar _ (by omega), toUpper_hexDigitChar _ (by omega)]

theorem jsRound_alpha_nonneg (alpha : ℚ) (h0 : 0 ≤ alpha) : 0 ≤ jsRound (alpha * 255) := by
  unfold jsRound
  rw [Int.le_floor]
  push_cast
  nlinarith

theorem jsRound_alpha_le (alpha : ℚ) (h1 : alpha ≤ 1) : jsRound (alpha * 255) ≤ 255 := by
  unfold jsRound
  have h : ⌊alpha * 255 + 1 / 2⌋ < (256 : ℤ) := by
    rw [Int.floor_lt]
    push_cast
    nlinarith
  omega

/-- C8: for any color string and alpha in [0, 1], `addAlpha` appends the
two-digit uppercase zero-padded hexadecimal rendering of
`round(alpha * 255)`; in particular alpha 0 appends 00, alpha 1 appends FF,
and the red color at half alpha gives the documented eight-digit result. -/
theorem claim_C8_addAlpha_format (c : String) (alpha : ℚ)
    (h0 : 0 ≤ alpha) (h1 : alpha ≤ 1) :
    addAlpha c alpha = c ++ hexByteUpper (jsRound (alpha * 255)).toNat ∧
      (alpha = 0 → addAlpha c alpha = c ++ "00") ∧
      (alpha = 1 → addAlpha c alpha = c ++ "FF") ∧
      addAlpha "#FF0000" (1 / 2) = "#FF000080" := by
  have key : addAlpha c alpha = c ++ hexByteUpper (jsRound (alpha * 255)).toNat := by
    simp only [addAlpha, hexByteUpper]
    rw [addAlpha_suffix _ (jsRound_alpha_nonneg alpha h0) (jsRound_alpha_le alpha h1)]
  refine ⟨key, ?_, ?_, ?_⟩
  · rintro rfl
    rw [key, show jsRound ((0 : ℚ) * 255) = 0 from by norm_num [jsRound]]
    exact congrArg (fun t => c ++ t) (by decide)
  · rintro rfl
    rw [key, show jsRound ((1 : ℚ) * 255) = 255 from by norm_num [jsRound]]
    exact congrArg (fun t => c ++ t) (by decide)
  · rw [show ((1 : ℚ) / 2) = (1 / 2 : ℚ) from rfl]
    simp only [addAlpha, show jsRound ((1 / 2 : ℚ) * 255) = 128 from by norm_num [jsRound]]
    decide

/-- C8 witness: the format statement evaluated at a concrete color and
alpha. -/
theorem claim_C8_witness :
    (0 : ℚ) ≤ 1 / 2 ∧ (1 / 2 : ℚ) ≤ 1 ∧
      (addAlpha "#FF0000" (1 / 2) =
          "#FF0000" ++ hexByteUpper (jsRound ((1 / 2 : ℚ) * 255)).toNat ∧
        ((1 / 2 : ℚ) = 0 → addAlpha "#FF0000" (1 / 2) = "#FF0000" ++ "00") ∧
        ((1 / 2 : ℚ) = 1 → addAlpha "#FF0000" (1 / 2) = "#FF0000" ++ "FF") ∧
        addAlpha "#FF0000" (1 / 2) = "#FF000080") :=
  ⟨by norm_num, by norm_num,
    claim_C8_addAlpha_format "#FF0000" (1 / 2) (by norm_num) (by norm_num)⟩

/-! ## Resolver state machine lemmas -/

theorem loadThemePreference_isLoading (seed : Bool) (o : ReadOutcome) :
    (loadThemePreference seed o).isLoading = false := by
  cases o with
  | record v => cases v <;> rfl
  | _ => rfl

theorem step_isLoading_false (seed : Bool) (st : SystemState) (e : Event)
    (h : st.resolver.isLoading = false) : (step seed st e).resolver.isLoading = false := by
  cases e with
  | load o => exact loadThemePreference_isLoading seed o
  | toggle now ok => exact h

theorem foldl_isLoading_false (seed : Bool) (evs : List Event) (st : SystemState)
    (h : st.resolver.isLoading = false) :
    (evs.foldl (step seed) st).resolver.isLoading = false := by
  induction evs generalizing st with
  | nil => exact h
  | cons e evs ih => exact ih _ (step_isLoading_false seed st e h)

theorem foldl_isLoading_true (seed : Bool) (evs : List Event) (st : SystemState)
    (h : st.resolver.isLoading = true) (hl : ∀ e ∈ evs, isLoadEvent e = false) :
    (evs.foldl (step seed) st).resolver.isLoading = true := by
  induction evs generalizing st with
  | nil => exact h
  | cons e evs ih =>
    cases e with
    | load o =>
      have hc := hl (Event.load o) (by simp)
      simp [isLoadEvent] at hc
    | toggle now ok =>
      exact ih _ h fun x hx => hl _ (by simp [hx])

/-- C1: at every observable instant of every run, the exposed context value
computes `theme` as a pure function of the current `isDark` flag: it is the
dark theme when the flag is true, the light theme when it is false, and is
never cached apart from the flag. -/
theorem claim_C1_theme_pure_function_of_isDark (scheme : Option String)
    (store0 : Option Json) (evs : List Event) :
    (contextValue (run scheme store0 evs)).theme =
        (if jsTruthy (run scheme store0 evs).resolver.isDark then darkTheme
          else lightTheme) ∧
      ((run scheme store0 evs).resolver.isDark = some (Json.jbool true) →
        (contextValue (run scheme store0 evs)).theme = darkTheme) ∧
      ((run scheme store0 evs).resolver.isDark = some (Json.jbool false) →
        (contextValue (run scheme store0 evs)).theme = lightTheme) := by
  refine ⟨rfl, ?_, ?_⟩ <;> intro h <;> simp [contextValue, h, jsTruthy]

/-- C1 witness: the invariant evaluated on a concrete run (dark platform
seed, no events yet). -/
theorem claim_C1_witness :
    (contextValue (run (some "dark") none [])).theme = darkTheme :=
  (claim_C1_theme_pure_function_of_isDark (some "dark") none []).2.1 rfl

/-- C3 (amended): when the stored record parses to a JSON object, the load
adopts the `isDark` property of the record verbatim, with no validation: a
record lacking the field leaves the state `undefined` (falsy), so the
exposed theme is the light theme regardless of the platform seed.  Only a
read error, an absent record, or a JSON parse failure retains the seed. -/
theorem claim_C3_missing_isDark_adopted (scheme : Option String) (store0 : Option Json)
    (fields : List (String × Json)) :
    (run scheme store0
        [Event.load (ReadOutcome.record (Json.jobj fields))]).resolver.isDark
        = jsGet fields "isDark" ∧
      (jsGet fields "isDark" = none →
        (contextValue (run scheme store0
          [Event.load (ReadOutcome.record (Json.jobj fields))])).theme = lightTheme) ∧
      (∀ o, o = ReadOutcome.readError ∨ o = ReadOutcome.noRecord ∨
          o = ReadOutcome.malformed →
        (run scheme store0 [Event.load o]).resolver.isDark
          = some (Json.jbool (platformSeed scheme))) := by
  refine ⟨rfl, ?_, ?_⟩
  · intro h
    show (if jsTruthy (jsGet fields "isDark") then darkTheme else lightTheme) = lightTheme
    rw [h]
    simp [jsTruthy]
  · rintro o (rfl | rfl | rfl) <;> rfl

/-- C3 counterexample: platform seed dark, stored record a valid JSON
object lacking `isDark`.  The claim predicts the dark seed is retained; the
code instead stores `undefined` and exposes the light theme. -/
theorem claim_C3_counterexample :
    platformSeed (some "dark") = true ∧
      (run (some "dark")
          (some (Json.jobj [("lastUpdated", Json.jstr "2024-01-01T00:00:00.000Z")]))
          [Event.load (ReadOutcome.record
            (Json.jobj [("lastUpdated", Json.jstr "2024-01-01T00:00:00.000Z")]))]).resolver.isDark
        = none ∧
      (run (some "dark")
          (some (Json.jobj [("lastUpdated", Json.jstr "2024-01-01T00:00:00.000Z")]))
          [Event.load (ReadOutcome.record
            (Json.jobj [("lastUpdated", Json.jstr "2024-01-01T00:00:00.000Z")]))]).resolver.isDark
        ≠ some (Json.jbool true) ∧
      (contextValue (run (some "dark")
          (some (Json.jobj [("lastUpdated", Json.jstr "2024-01-01T00:00:00.000Z")]))
          [Event.load (ReadOutcome.record
            (Json.jobj [("lastUpdated", Json.jstr "2024-01-01T00:00:00.000Z")]))])).theme
        = lightTheme ∧
      lightTheme ≠ darkTheme := by
  have h : (run (some "dark")
      (some (Json.jobj [("lastUpdated", Json.jstr "2024-01-01T00:00:00.000Z")]))
      [Event.load (ReadOutcome.record
        (Json.jobj [("lastUpdated", Json.jstr "2024-01-01T00:00:00.000Z")]))]).resolver.isDark
      = none := by
    show jsGet [("lastUpdated", Json.jstr "2024-01-01T00:00:00.000Z")] "isDark" = none
    rw [jsGet, if_neg (by decide)]
    rfl
  refine ⟨rfl, h, by simp [h], ?_, by decide⟩
  show (if jsTruthy (jsGet [("lastUpdated", Json.jstr "2024-01-01T00:00:00.000Z")] "isDark")
      then darkTheme else lightTheme) = lightTheme
  rw [show jsGet [("lastUpdated", Json.jstr "2024-01-01T00:00:00.000Z")] "isDark" = none
    from h]
  simp [jsTruthy]

/-- C3 witness: the amended adoption statement evaluated on the empty
record. -/
theorem claim_C3_witness :
    (run (some "dark") none
        [Event.load (ReadOutcome.record (Json.jobj []))]).resolver.isDark
        = jsGet [] "isDark" ∧
      (contextValue (run (some "dark") none
          [Event.load (ReadOutcome.record (Json.jobj []))])).theme = lightTheme ∧
      (run (some "dark") none [Event.load ReadOutcome.readError]).resolver.isDark
        = some (Json.jbool (platformSeed (some "dark"))) := by
  have h := claim_C3_missing_isDark_adopted (some "dark") none []
  exact ⟨h.1, h.2.1 rfl, h.2.2 ReadOutcome.readError (Or.inl rfl)⟩

/-- C5: `toggleTheme` flips `isDark` in memory unconditionally (the
optimistic update does not depend on the write outcome, so a failed write
is never rolled back), leaves `isLoading` alone, and on a successful write
overwrites the stored record with the flipped value and the new
timestamp; on a failed write the store is unchanged. -/
theorem claim_C5_toggle_optimistic_no_rollback (st : SystemState) (now : String)
    (writeOk : Bool) :
    (toggleTheme now writeOk st).resolver.isDark
        = some (Json.jbool (! jsTruthy st.resolver.isDark)) ∧
      (toggleTheme now writeOk st).store =
        (if writeOk then some (prefRecord (! jsTruthy st.resolver.isDark) now)
          else st.store) ∧
      (toggleTheme now writeOk st).resolver.isLoading = st.resolver.isLoading := by
  refine ⟨rfl, ?_, rfl⟩
  cases writeOk <;> rfl

/-- C10: a toggle that lands before the pending load completes is
overwritten in memory by the value of the loaded record, while the toggle write has already replaced the stored record with the toggled value. -/
theorem claim_C10_load_overwrites_earlier_toggle (scheme : Option String)
    (fields : List (String × Json)) (b : Bool) (now : String)
    (hb : jsGet fields "isDark" = some (Json.jbool b)) :
    (run scheme (some (Json.jobj fields)) [Event.toggle now true]).resolver.isDark
        = some (Json.jbool (! platformSeed scheme)) ∧
      (run scheme (some (Json.jobj fields))
          [Event.toggle now true,
            Event.load (ReadOutcome.record (Json.jobj fields))]).resolver.isDark
        = some (Json.jbool b) ∧
      (run scheme (some (Json.jobj fields))
          [Event.toggle now true,
            Event.load (ReadOutcome.record (Json.jobj fields))]).store
        = some (prefRecord (! platformSeed scheme) now) ∧
      (run scheme (some (Json.jobj fields))
          [Event.toggle now true,
            Event.load (ReadOutcome.record (Json.jobj fields))]).resolver.isLoading
        = false := by
  refine ⟨rfl, ?_, rfl, rfl⟩
  show jsGet fields "isDark" = some (Json.jbool b)
  exact hb

/-- C10 witness: the race evaluated on a concrete stored record. -/
theorem claim_C10_witness :
    jsGet [("isDark", Json.jbool true), ("lastUpdated", Json.jstr "t0")] "isDark"
        = some (Json.jbool true) ∧
      (run none (some (Json.jobj [("isDark", Json.jbool true), ("lastUpdated", Json.jstr "t0")]))
          [Event.toggle "t1" true]).resolver.isDark
        = some (Json.jbool (! platformSeed none)) ∧
      (run none (some (Json.jobj [("isDark", Json.jbool true), ("lastUpdated", Json.jstr "t0")]))
          [Event.toggle "t1" true,
            Event.load (ReadOutcome.record (Json.jobj
              [("isDark", Json.jbool true), ("lastUpdated", Json.jstr "t0")]))]).resolver.isDark
        = some (Json.jbool true) := by
  have hb : jsGet [("isDark", Json.jbool true), ("lastUpdated", Json.jstr "t0")] "isDark"
      = some (Json.jbool true) := by
    rw [jsGet, if_pos rfl]
  have h := claim_C10_load_overwrites_earlier_toggle none
    [("isDark", Json.jbool true), ("lastUpdated", Json.jstr "t0")] true "t1" hb
  exact ⟨hb, h.1, h.2.1⟩

/-- C4: in any run whose single load completes after `pre` and before
`post` (neither containing another load), a read failure or an absent
record leaves `isDark` equal to the platform seed at load completion; and
regardless of the outcome, `isLoading` is true at every instant up to the
load and false at every instant from the load on. -/
theorem claim_C4_read_failure_fallback_isLoading_once (scheme : Option String)
    (store0 : Option Json) (pre post : List Event) (o : ReadOutcome)
    (hpre : ∀ e ∈ pre, isLoadEvent e = false)
    (_hpost : ∀ e ∈ post, isLoadEvent e = false) :
    ((o = ReadOutcome.readError ∨ o = ReadOutcome.noRecord) →
        (run scheme store0 (pre ++ [Event.load o])).resolver.isDark
            = some (Json.jbool (platformSeed scheme)) ∧
          (run scheme store0 (pre ++ [Event.load o])).resolver.isLoading = false) ∧
      (∀ k, k ≤ pre.length →
        (run scheme store0
          ((pre ++ Event.load o :: post).take k)).resolver.isLoading = true) ∧
      (∀ k, pre.length < k →
        (run scheme store0
          ((pre ++ Event.load o :: post).take k)).resolver.isLoading = false) := by
  have hsplit : ∀ o2 : ReadOutcome, run scheme store0 (pre ++ [Event.load o2])
      = step (platformSeed scheme) (run scheme store0 pre) (Event.load o2) := by
    intro o2
    rw [run, run, List.foldl_append]
    rfl
  refine ⟨?_, ?_, ?_⟩
  · rintro (rfl | rfl) <;> rw [hsplit] <;> exact ⟨rfl, rfl⟩
  · intro k hk
    rw [List.take_append_eq_append_take, Nat.sub_eq_zero_of_le hk, List.take_zero,
      List.append_nil]
    exact foldl_isLoading_true _ _ _ rfl fun e he => hpre e (List.take_subset _ _ he)
  · intro k hk
    obtain ⟨m, hm⟩ : ∃ m, k - pre.length = m + 1 := ⟨k - pre.length - 1, by omega⟩
    rw [List.take_append_eq_append_take, List.take_of_length_le (by omega), hm,
      List.take_succ_cons]
    rw [run, List.foldl_append, List.foldl_cons]
    exact foldl_isLoading_false _ _ _ (loadThemePreference_isLoading _ _)

/-- C4 witness: a concrete run with no record in the store and a dark
platform seed. -/
theorem claim_C4_witness :
    ((run (some "dark") none ([] ++ [Event.load ReadOutcome.noRecord])).resolver.isDark
          = some (Json.jbool (platformSeed (some "dark"))) ∧
        (run (some "dark") none
          ([] ++ [Event.load ReadOutcome.noRecord])).resolver.isLoading = false) ∧
      (run (some "dark") none
          (([] ++ Event.load ReadOutcome.noRecord :: []).take 0)).resolver.isLoading = true ∧
      (run (some "dark") none
          (([] ++ Event.load ReadOutcome.noRecord :: []).take 1)).resolver.isLoading
        = false := by
  have h := claim_C4_read_failure_fallback_isLoading_once (some "dark") none [] []
    ReadOutcome.noRecord (by simp) (by simp)
  exact ⟨h.1 (Or.inr rfl), h.2.1 0 (by simp), h.2.2 1 (by simp)⟩


/-! ## Real-exponent bounds for the luminance pipeline

The gamma branch of the linearization is a real 2.4-power; rational bounds
are certified through fifth and twelfth powers: for nonnegative x, a, b,
`a <= x ^ 2.4 <= b` follows from `a ^ 5 <= x ^ 12 <= b ^ 5`. -/

theorem rpow_two_four_pow_five (x : ℝ) (hx : 0 ≤ x) :
    (x ^ (2.4 : ℝ)) ^ (5 : ℕ) = x ^ (12 : ℕ) := by
  rw [← Real.rpow_natCast (x ^ (2.4 : ℝ)) 5, ← Real.rpow_mul hx]
  rw [show ((2.4 : ℝ) * (5 : ℕ)) = ((12 : ℕ) : ℝ) from by norm_num, Real.rpow_natCast]

theorem rpow_two_four_le (x b : ℝ) (hx : 0 ≤ x) (hb : 0 ≤ b)
    (h : x ^ (12 : ℕ) ≤ b ^ (5 : ℕ)) : x ^ (2.4 : ℝ) ≤ b := by
  have h2 : (x ^ (2.4 : ℝ)) ^ (5 : ℕ) ≤ b ^ (5 : ℕ) := by
    rw [rpow_two_four_pow_five x hx]
    exact h
  exact le_of_pow_le_pow_left (by norm_num) hb h2

theorem le_rpow_two_four (x a : ℝ) (hx : 0 ≤ x)
    (h : a ^ (5 : ℕ) ≤ x ^ (12 : ℕ)) : a ≤ x ^ (2.4 : ℝ) := by
  have h2 : a ^ (5 : ℕ) ≤ (x ^ (2.4 : ℝ)) ^ (5 : ℕ) := by
    rw [rpow_two_four_pow_five x hx]
    exact h
  exact le_of_pow_le_pow_left (by norm_num) (Real.rpow_nonneg hx _) h2

theorem srgbLin_nonneg (n : ℕ) : 0 ≤ srgbLin n := by
  unfold srgbLin
  dsimp only
  split_ifs
  · positivity
  · exact Real.rpow_nonneg (by positivity) _

theorem srgbLin_gamma (n : ℕ) (hn : ¬((n : ℝ) / 255 ≤ 0.03928)) :
    srgbLin n = (((n : ℝ) / 255 + 0.055) / 1.055) ^ (2.4 : ℝ) := by
  unfold srgbLin
  rw [if_neg hn]

theorem srgbLin_bounds (n : ℕ) (a b : ℝ) (hn : ¬((n : ℝ) / 255 ≤ 0.03928))
    (ha : 0 ≤ a) (hb : 0 ≤ b)
    (hl : a ^ (5 : ℕ) ≤ (((n : ℝ) / 255 + 0.055) / 1.055) ^ (12 : ℕ))
    (hu : (((n : ℝ) / 255 + 0.055) / 1.055) ^ (12 : ℕ) ≤ b ^ (5 : ℕ)) :
    a ≤ srgbLin n ∧ srgbLin n ≤ b := by
  rw [srgbLin_gamma n hn]
  have hx : (0 : ℝ) ≤ ((n : ℝ) / 255 + 0.055) / 1.055 := by positivity
  exact ⟨le_rpow_two_four _ a hx hl, rpow_two_four_le _ b hx hb hu⟩

theorem srgbLin_zero : srgbLin 0 = 0 := by
  unfold srgbLin
  norm_num

theorem srgbLin_255 : srgbLin 255 = 1 := by
  unfold srgbLin
  rw [if_neg (by norm_num)]
  rw [show (((255 : ℕ) : ℝ) / 255 + 0.055) / 1.055 = 1 from by norm_num]
  exact Real.one_rpow _

theorem lin_26 : (0.0103296 : ℝ) ≤ srgbLin 26 ∧ srgbLin 26 ≤ 0.0103301 :=
  srgbLin_bounds 26 0.0103296 0.0103301 (by norm_num) (by norm_num) (by norm_num)
    (by norm_num) (by norm_num)

theorem lin_243 : (0.8962691 : ℝ) ≤ srgbLin 243 ∧ srgbLin 243 ≤ 0.8962696 :=
  srgbLin_bounds 243 0.8962691 0.8962696 (by norm_num) (by norm_num) (by norm_num)
    (by norm_num) (by norm_num)

theorem lin_247 : (0.9301106 : ℝ) ≤ srgbLin 247 ∧ srgbLin 247 ≤ 0.9301111 :=
  srgbLin_bounds 247 0.9301106 0.9301111 (by norm_num) (by norm_num) (by norm_num)
    (by norm_num) (by norm_num)

theorem lin_250 : (0.9559731 : ℝ) ≤ srgbLin 250 ∧ srgbLin 250 ≤ 0.9559736 :=
  srgbLin_bounds 250 0.9559731 0.9559736 (by norm_num) (by norm_num) (by norm_num)
    (by norm_num) (by norm_num)

theorem lin_63 : (0.0497063 : ℝ) ≤ srgbLin 63 ∧ srgbLin 63 ≤ 0.0497068 :=
  srgbLin_bounds 63 0.0497063 0.0497068 (by norm_num) (by norm_num) (by norm_num)
    (by norm_num) (by norm_num)

theorem lin_81 : (0.0822825 : ℝ) ≤ srgbLin 81 ∧ srgbLin 81 ≤ 0.0822830 :=
  srgbLin_bounds 81 0.0822825 0.0822830 (by norm_num) (by norm_num) (by norm_num)
    (by norm_num) (by norm_num)

theorem lin_181 : (0.4620767 : ℝ) ≤ srgbLin 181 ∧ srgbLin 181 ≤ 0.4620772 :=
  srgbLin_bounds 181 0.4620767 0.4620772 (by norm_num) (by norm_num) (by norm_num)
    (by norm_num) (by norm_num)

theorem lin_105 : (0.1412630 : ℝ) ≤ srgbLin 105 ∧ srgbLin 105 ≤ 0.1412635 :=
  srgbLin_bounds 105 0.1412630 0.1412635 (by norm_num) (by norm_num) (by norm_num)
    (by norm_num) (by norm_num)

theorem lin_92 : (0.1070229 : ℝ) ≤ srgbLin 92 ∧ srgbLin 92 ≤ 0.1070234 :=
  srgbLin_bounds 92 0.1070229 0.1070234 (by norm_num) (by norm_num) (by norm_num)
    (by norm_num) (by norm_num)

theorem lin_102 : (0.1328681 : ℝ) ≤ srgbLin 102 ∧ srgbLin 102 ≤ 0.1328686 :=
  srgbLin_bounds 102 0.1328681 0.1328686 (by norm_num) (by norm_num) (by norm_num)
    (by norm_num) (by norm_num)

theorem lin_18 : (0.0060486 : ℝ) ≤ srgbLin 18 ∧ srgbLin 18 ≤ 0.0060491 :=
  srgbLin_bounds 18 0.0060486 0.0060491 (by norm_num) (by norm_num) (by norm_num)
    (by norm_num) (by norm_num)

theorem lin_30 : (0.0129828 : ℝ) ≤ srgbLin 30 ∧ srgbLin 30 ≤ 0.0129833 :=
  srgbLin_bounds 30 0.0129828 0.0129833 (by norm_num) (by norm_num) (by norm_num)
    (by norm_num) (by norm_num)

theorem lin_121 : (0.1912014 : ℝ) ≤ srgbLin 121 ∧ srgbLin 121 ≤ 0.1912019 :=
  srgbLin_bounds 121 0.1912014 0.1912019 (by norm_num) (by norm_num) (by norm_num)
    (by norm_num) (by norm_num)

theorem lin_134 : (0.2383973 : ℝ) ≤ srgbLin 134 ∧ srgbLin 134 ≤ 0.2383978 :=
  srgbLin_bounds 134 0.2383973 0.2383978 (by norm_num) (by norm_num) (by norm_num)
    (by norm_num) (by norm_num)

theorem lin_203 : (0.5972015 : ℝ) ≤ srgbLin 203 ∧ srgbLin 203 ≤ 0.5972020 :=
  srgbLin_bounds 203 0.5972015 0.5972020 (by norm_num) (by norm_num) (by norm_num)
    (by norm_num) (by norm_num)

theorem lin_100 : (0.1274374 : ℝ) ≤ srgbLin 100 ∧ srgbLin 100 ≤ 0.1274379 :=
  srgbLin_bounds 100 0.1274374 0.1274379 (by norm_num) (by norm_num) (by norm_num)
    (by norm_num) (by norm_num)

theorem lin_218 : (0.7011016 : ℝ) ≤ srgbLin 218 ∧ srgbLin 218 ≤ 0.7011021 :=
  srgbLin_bounds 218 0.7011016 0.7011021 (by norm_num) (by norm_num) (by norm_num)
    (by norm_num) (by norm_num)

theorem lin_176 : (0.4341534 : ℝ) ≤ srgbLin 176 ∧ srgbLin 176 ≤ 0.4341539 :=
  srgbLin_bounds 176 0.4341534 0.4341539 (by norm_num) (by norm_num) (by norm_num)
    (by norm_num) (by norm_num)

theorem getLuminance_eq (hex : String) (r g b : ℕ)
    (h : hexChannels hex = (r, g, b)) :
    getLuminance hex = 0.2126 * srgbLin r + 0.7152 * srgbLin g + 0.0722 * srgbLin b := by
  unfold getLuminance
  rw [h]

theorem getLuminance_nonneg (hex : String) : 0 ≤ getLuminance hex := by
  unfold getLuminance
  have h1 := mul_nonneg (by norm_num : (0 : ℝ) ≤ 0.2126) (srgbLin_nonneg (hexChannels hex).1)
  have h2 := mul_nonneg (by norm_num : (0 : ℝ) ≤ 0.7152) (srgbLin_nonneg (hexChannels hex).2.1)
  have h3 := mul_nonneg (by norm_num : (0 : ℝ) ≤ 0.0722) (srgbLin_nonneg (hexChannels hex).2.2)
  linarith

theorem lum_FFFFFF : getLuminance "#FFFFFF" = 1 := by
  rw [getLuminance_eq "#FFFFFF" 255 255 255 rfl, srgbLin_255]
  norm_num

theorem lum_000000 : getLuminance "#000000" = 0 := by
  rw [getLuminance_eq "#000000" 0 0 0 rfl, srgbLin_zero]
  norm_num

theorem lum_1A1A1A : (0.0103296 : ℝ) ≤ getLuminance "#1A1A1A" ∧
    getLuminance "#1A1A1A" ≤ 0.0103302 := by
  rw [getLuminance_eq "#1A1A1A" 26 26 26 rfl]
  constructor <;> linarith [lin_26.1, lin_26.2]

theorem lum_F3F7FA : (0.9247831 : ℝ) ≤ getLuminance "#F3F7FA" ∧
    getLuminance "#F3F7FA" ≤ 0.9247837 := by
  rw [getLuminance_eq "#F3F7FA" 243 247 250 rfl]
  constructor <;> linarith [lin_250.1, lin_250.2, lin_243.1, lin_243.2, lin_247.1, lin_247.2]

theorem lum_3F51B5 : (0.1027779 : ℝ) ≤ getLuminance "#3F51B5" ∧
    getLuminance "#3F51B5" ≤ 0.1027785 := by
  rw [getLuminance_eq "#3F51B5" 63 81 181 rfl]
  constructor <;> linarith [lin_81.1, lin_81.2, lin_181.1, lin_181.2, lin_63.1, lin_63.2]

theorem lum_00695C : (0.1087583 : ℝ) ≤ getLuminance "#00695C" ∧
    getLuminance "#00695C" ≤ 0.1087588 := by
  rw [getLuminance_eq "#00695C" 0 105 92 rfl, srgbLin_zero]
  constructor <;> linarith [lin_105.1, lin_105.2, lin_92.1, lin_92.2]

theorem lum_666666 : (0.1328681 : ℝ) ≤ getLuminance "#666666" ∧
    getLuminance "#666666" ≤ 0.1328687 := by
  rw [getLuminance_eq "#666666" 102 102 102 rfl]
  constructor <;> linarith [lin_102.1, lin_102.2]

theorem lum_121212 : (0.0060486 : ℝ) ≤ getLuminance "#121212" ∧
    getLuminance "#121212" ≤ 0.0060492 := by
  rw [getLuminance_eq "#121212" 18 18 18 rfl]
  constructor <;> linarith [lin_18.1, lin_18.2]

theorem lum_1E1E1E : (0.0129828 : ℝ) ≤ getLuminance "#1E1E1E" ∧
    getLuminance "#1E1E1E" ≤ 0.0129834 := by
  rw [getLuminance_eq "#1E1E1E" 30 30 30 rfl]
  constructor <;> linarith [lin_30.1, lin_30.2]

theorem lum_7986CB : (0.2542691 : ℝ) ≤ getLuminance "#7986CB" ∧
    getLuminance "#7986CB" ≤ 0.2542697 := by
  rw [getLuminance_eq "#7986CB" 121 134 203 rfl]
  constructor <;> linarith [lin_121.1, lin_121.2, lin_203.1, lin_203.2, lin_134.1, lin_134.2]

theorem lum_64FFDA : (0.7929127 : ℝ) ≤ getLuminance "#64FFDA" ∧
    getLuminance "#64FFDA" ≤ 0.7929129 := by
  rw [getLuminance_eq "#64FFDA" 100 255 218 rfl, srgbLin_255]
  constructor <;> linarith [lin_100.1, lin_100.2, lin_218.1, lin_218.2]

theorem lum_B0B0B0 : (0.4341534 : ℝ) ≤ getLuminance "#B0B0B0" ∧
    getLuminance "#B0B0B0" ≤ 0.4341540 := by
  rw [getLuminance_eq "#B0B0B0" 176 176 176 rfl]
  constructor <;> linarith [lin_176.1, lin_176.2]

theorem ratio_ge_of_bounds (l1 l2 a1 b2 : ℝ) (h1 : a1 ≤ l1) (h2 : l2 ≤ b2)
    (h2n : 0 ≤ l2) (hb2 : 0 ≤ b2) (key : 4.5 * (b2 + 0.05) ≤ a1 + 0.05) :
    (max l1 l2 + 0.05) / (min l1 l2 + 0.05) ≥ 4.5 := by
  have hle : l2 ≤ l1 := by linarith
  rw [max_eq_left hle, min_eq_right hle, ge_iff_le, le_div_iff (by linarith)]
  linarith

theorem meetsAA_fg_bright (fg bg : String) (a1 b2 : ℝ)
    (h1 : a1 ≤ getLuminance fg) (h2 : getLuminance bg ≤ b2) (hb2 : 0 ≤ b2)
    (key : 4.5 * (b2 + 0.05) ≤ a1 + 0.05) :
    meetsAccessibilityStandards fg bg := by
  unfold meetsAccessibilityStandards getContrastRatio
  exact ratio_ge_of_bounds (getLuminance fg) (getLuminance bg) a1 b2 h1 h2
    (getLuminance_nonneg bg) hb2 key

theorem meetsAA_bg_bright (fg bg : String) (a1 b2 : ℝ)
    (h1 : a1 ≤ getLuminance bg) (h2 : getLuminance fg ≤ b2) (hb2 : 0 ≤ b2)
    (key : 4.5 * (b2 + 0.05) ≤ a1 + 0.05) :
    meetsAccessibilityStandards fg bg := by
  unfold meetsAccessibilityStandards getContrastRatio
  dsimp only
  rw [max_comm, min_comm]
  exact ratio_ge_of_bounds (getLuminance bg) (getLuminance fg) a1 b2 h1 h2
    (getLuminance_nonneg fg) hb2 key

/-- C2: both shipped themes pass all five fixed role-pair AA checks, so
`validateThemeAccessibility` reports `allValid` for each, computed on the
actual hex constants of the catalog. -/
theorem claim_C2_shipped_catalog_accessible :
    (validateThemeAccessibility lightTheme).allValid ∧
      (validateThemeAccessibility darkTheme).allValid := by
  constructor
  · refine ⟨?_, ?_, ?_, ?_, ?_⟩
    · exact meetsAA_bg_bright "#1A1A1A" "#F3F7FA" 0.9247831 0.0103302
        lum_F3F7FA.1 lum_1A1A1A.2 (by norm_num) (by norm_num)
    · exact meetsAA_bg_bright "#1A1A1A" "#FFFFFF" 1 0.0103302
        (le_of_eq lum_FFFFFF.symm) lum_1A1A1A.2 (by norm_num) (by norm_num)
    · exact meetsAA_bg_bright "#3F51B5" "#F3F7FA" 0.9247831 0.1027785
        lum_F3F7FA.1 lum_3F51B5.2 (by norm_num) (by norm_num)
    · exact meetsAA_bg_bright "#00695C" "#F3F7FA" 0.9247831 0.1087588
        lum_F3F7FA.1 lum_00695C.2 (by norm_num) (by norm_num)
    · exact meetsAA_bg_bright "#666666" "#F3F7FA" 0.9247831 0.1328687
        lum_F3F7FA.1 lum_666666.2 (by norm_num) (by norm_num)
  · refine ⟨?_, ?_, ?_, ?_, ?_⟩
    · exact meetsAA_fg_bright "#FFFFFF" "#121212" 1 0.0060492
        (le_of_eq lum_FFFFFF.symm) lum_121212.2 (by norm_num) (by norm_num)
    · exact meetsAA_fg_bright "#FFFFFF" "#1E1E1E" 1 0.0129834
        (le_of_eq lum_FFFFFF.symm) lum_1E1E1E.2 (by norm_num) (by norm_num)
    · exact meetsAA_fg_bright "#7986CB" "#121212" 0.2542691 0.0060492
        lum_7986CB.1 lum_121212.2 (by norm_num) (by norm_num)
    · exact meetsAA_fg_bright "#64FFDA" "#121212" 0.7929127 0.0060492
        lum_64FFDA.1 lum_121212.2 (by norm_num) (by norm_num)
    · exact meetsAA_fg_bright "#B0B0B0" "#121212" 0.4341534 0.0060492
        lum_B0B0B0.1 lum_121212.2 (by norm_num) (by norm_num)

/-- C9: the contrast ratio of any color with itself is exactly 1, and the
contrast ratio of pure black against pure white is exactly 21. -/
theorem claim_C9_contrast_self_and_extremes :
    (∀ c : String, getContrastRatio c c = 1) ∧
      getContrastRatio "#000000" "#FFFFFF" = 21 := by
  constructor
  · intro c
    unfold getContrastRatio
    dsimp only
    rw [max_self, min_self]
    have h := getLuminance_nonneg c
    exact div_self (by linarith)
  · unfold getContrastRatio
    dsimp only
    rw [lum_000000, lum_FFFFFF]
    norm_num

end Scanzy
